import Mathlib

/-!
Verification of the credential/session lifecycle of the Huggingface-Chat
repository: a shallow embedding of `utils/config.py` (the INI-backed
`Config` store), `auth/login.py` (`Login`) and `auth/auth_manager.py`
(`AuthenticationManager`), followed by theorems settling the spec claims.

The backing store is modelled as structured named sections of ordered
key/value string pairs; per the spec, the file-format mechanics of the
underlying config library are an external collaborator exposing simple
key-value persistence, so serialisation is modelled as the identity on
that structure. Python exceptions are modelled with an explicit `Except`
result; since a raised exception in Python leaves already-performed
mutations in place, stateful operations return the successor state in
both the normal and the raising case.
-/

namespace HFChat

/-- One section of the store: an ordered list of key/value string pairs,
mirroring the insertion-ordered per-section dict that the config library keeps. -/
abbrev IniSection := List (String × String)

/-- The whole in-memory parser state: named sections in order. -/
abbrev IniSections := List (String × IniSection)

/-- Python exceptions raised by the modelled code. -/
inductive Exc where
  | keyError (key : String)
  | assertionError (key : String)
  | httpStatusError (status : Nat)
  | indexError
  | typeError
  | fileNotFoundError
deriving DecidableEq, Repr

/-- Decidable equality for `Except` results, so claim statements over modelled
calls can be settled by evaluation. -/
instance instDecidableEqExcept {ε α : Type} [DecidableEq ε] [DecidableEq α] :
    DecidableEq (Except ε α) := fun x y =>
  match x, y with
  | Except.ok a, Except.ok b =>
    if h : a = b then isTrue (congrArg Except.ok h)
    else isFalse (fun hc => h (Except.ok.inj hc))
  | Except.error a, Except.error b =>
    if h : a = b then isTrue (congrArg Except.error h)
    else isFalse (fun hc => h (Except.error.inj hc))
  | Except.ok _, Except.error _ => isFalse (fun hc => Except.noConfusion hc)
  | Except.error _, Except.ok _ => isFalse (fun hc => Except.noConfusion hc)

/-- Key lookup in a section; keys are unique, first match wins. -/
def lookupKV : IniSection → String → Option String
  | [], _ => none
  | kv :: rest, k => if kv.1 = k then some kv.2 else lookupKV rest k

/-- Section lookup by exact (case-sensitive) name, as the config library's
section access `self.config[name]` before it raises `KeyError`. -/
def getSection : IniSections → String → Option IniSection
  | [], _ => none
  | sec :: rest, n => if sec.1 = n then some sec.2 else getSection rest n

/-- Removal of a named section, as `remove_section`; removing an absent
section is not an error. -/
def removeSection : IniSections → String → IniSections
  | [], _ => []
  | sec :: rest, n => if sec.1 = n then removeSection rest n else sec :: removeSection rest n

/-- Effect of `setdefault(key, "")` followed by assignment on a section dict:
replace the value in place when the key exists, otherwise append the pair. -/
def upsert : IniSection → String → String → IniSection
  | [], k, v => [(k, v)]
  | kv :: rest, k, v => if kv.1 = k then (k, v) :: rest else kv :: upsert rest k v

/-- Update one key of one named section in the parser state. -/
def setSectionKV : IniSections → String → String → String → IniSections
  | [], _, _, _ => []
  | sec :: rest, n, k, v =>
    if sec.1 = n then (sec.1, upsert sec.2 k v) :: rest else sec :: setSectionKV rest n k v

/-- State of a `Config` object: the in-memory parser plus the backing file
contents (`none` when the file does not exist on disk). -/
structure ConfigState where
  mem : IniSections
  file : Option IniSections
deriving DecidableEq, Repr

/-- `Config.__init__`: when the backing file does not exist, `_create_config`
creates the default in-memory sections `LOGIN` and `TOKEN` without writing
anything to disk; otherwise the file is read into memory. -/
def Config.make (disk : Option IniSections) : ConfigState :=
  match disk with
  | none => { mem := [("LOGIN", []), ("TOKEN", [])], file := none }
  | some f => { mem := f, file := some f }

/-- `Config.get_login_details`: `dict(self.config["LOGIN"].items())`; raises
`KeyError` when the `LOGIN` section is missing. -/
def get_login_details (s : ConfigState) : Except Exc IniSection :=
  match getSection s.mem "LOGIN" with
  | none => Except.error (Exc.keyError "LOGIN")
  | some kvs => Except.ok kvs

/-- `Config.get_token`: `dict(self.config["TOKEN"].items())`; raises
`KeyError` when the `TOKEN` section is missing. -/
def get_token (s : ConfigState) : Except Exc IniSection :=
  match getSection s.mem "TOKEN" with
  | none => Except.error (Exc.keyError "TOKEN")
  | some kvs => Except.ok kvs

/-- `Config.config_exists`: `all(self.config["LOGIN"].values())`, i.e. every
value present in the `LOGIN` section is a non-empty (truthy) string —
vacuously true when the section is empty. -/
def config_exists (s : ConfigState) : Except Exc Bool :=
  match getSection s.mem "LOGIN" with
  | none => Except.error (Exc.keyError "LOGIN")
  | some kvs => Except.ok (kvs.all (fun kv => kv.2 != ""))

/-- `Config.is_logged_in`: `bool(self.get_token().get("token"))` — true iff
the stored token value exists and is non-empty. -/
def is_logged_in (s : ConfigState) : Except Exc Bool :=
  match get_token s with
  | Except.error e => Except.error e
  | Except.ok tk =>
    Except.ok (match lookupKV tk "token" with
      | none => false
      | some v => v != "")

/-- Loop body shared by `set_login_details` and `set_token`: for each keyword
argument in order, assert the key is allowed (raising `AssertionError`
otherwise), then upsert it into the named section (section access raises
`KeyError` when the section is missing). The backing file is not touched here. -/
def setKwargsLoop (secName : String) (allowed : List String) :
    List (String × String) → ConfigState → Except Exc Unit × ConfigState
  | [], s => (Except.ok (), s)
  | (k, v) :: rest, s =>
    if k ∈ allowed then
      match getSection s.mem secName with
      | none => (Except.error (Exc.keyError secName), s)
      | some _ =>
        setKwargsLoop secName allowed rest { s with mem := setSectionKV s.mem secName k v }
    else (Except.error (Exc.assertionError k), s)

/-- `Config.set_login_details(**kwargs)`: validates and applies each pair to
the `LOGIN` section, then rewrites the backing file; a raised error skips the
file write but keeps the in-memory mutations already performed. -/
def set_login_details (kwargs : List (String × String)) (s : ConfigState) :
    Except Exc Unit × ConfigState :=
  match setKwargsLoop "LOGIN" ["email", "password"] kwargs s with
  | (Except.error e, s1) => (Except.error e, s1)
  | (Except.ok _, s1) => (Except.ok (), { s1 with file := some s1.mem })

/-- `Config.set_token(**kwargs)`: validates and applies each pair to the
`TOKEN` section, then rewrites the backing file. -/
def set_token (kwargs : List (String × String)) (s : ConfigState) :
    Except Exc Unit × ConfigState :=
  match setKwargsLoop "TOKEN" ["token", "expire_date"] kwargs s with
  | (Except.error e, s1) => (Except.error e, s1)
  | (Except.ok _, s1) => (Except.ok (), { s1 with file := some s1.mem })

/-- `Config.delete_section(section)`: removes the named section (no error when
absent) and rewrites the backing file. -/
def delete_section (name : String) (s : ConfigState) : ConfigState :=
  let mem1 := removeSection s.mem name
  { mem := mem1, file := some mem1 }

/-- `Config.load_auth_data`: composite read of `email` and `password` from the
login details via `dict.get`, yielding `none` for a missing key; raises only
when the `LOGIN` section itself is missing. -/
def load_auth_data (s : ConfigState) : Except Exc (Option String × Option String) :=
  match get_login_details s with
  | Except.error e => Except.error e
  | Except.ok kvs => Except.ok (lookupKV kvs "email", lookupKV kvs "password")

/-- The fixed User-Agent string from `auth/constants.py`. -/
def USER_AGENT : String :=
  "Mozilla/5.0 (Windows NT 10.0; Win64; x64) AppleWebKit/537.36 (KHTML, like Gecko)"

/-- The authenticated client configuration produced by `authenticate`:
basic-auth credentials, the fixed User-Agent and a cookie jar. Credentials
are plain strings because `httpx.BasicAuth` construction only succeeds when
both are present (see `basicAuth`). -/
structure HttpClientConfig where
  authEmail : String
  authPassword : String
  userAgent : String
  cookies : List (String × String)
deriving DecidableEq, Repr

/-- Construction of `httpx.BasicAuth(username, password)`: the credentials are
byte-encoded immediately, so a `None` username or password raises `TypeError`
inside the constructor. -/
def basicAuth (email password : Option String) : Except Exc (String × String) :=
  match email, password with
  | some e, some p => Except.ok (e, p)
  | _, _ => Except.error Exc.typeError

/-- Outcome of the login POST as observed by the client: the HTTP status code
and the cookie jar collected from the response (a name-to-value dict,
represented as its items in insertion order). -/
structure LoginResponse where
  status : Nat
  cookies : List (String × String)
deriving DecidableEq, Repr

/-- `Login.sign_in_with_email`: raises `HTTPStatusError` when the response
status is not 302, otherwise returns `True`. -/
def sign_in_with_email (resp : LoginResponse) : Except Exc Bool :=
  if resp.status ≠ 302 then Except.error (Exc.httpStatusError resp.status)
  else Except.ok true

/-- `Login.get_cookies`: `dict(self._client.cookies.items())`. -/
def get_cookies (resp : LoginResponse) : List (String × String) :=
  resp.cookies

/-- Python string indexing `s[i]`: the one-character string at position `i`,
or `IndexError` when out of range. -/
def strIndex (s : String) (i : Nat) : Except Exc String :=
  match s.data.get? i with
  | none => Except.error Exc.indexError
  | some c => Except.ok (String.singleton c)

/-- The token-extraction loop of `set_up_authentication`:
`for cookie in cookies:` iterates the cookie DICT, so `cookie` is a cookie
NAME; `cookie[0]` is its first character and `cookie[1]` its second. When
`cookie[0] == "token"` the code would persist `set_token(token=cookie[1])`. -/
def cookieScan : List (String × String) → ConfigState → Except Exc Unit × ConfigState
  | [], s => (Except.ok (), s)
  | ck :: rest, s =>
    match strIndex ck.1 0 with
    | Except.error e => (Except.error e, s)
    | Except.ok c0 =>
      if c0 = "token" then
        match strIndex ck.1 1 with
        | Except.error e => (Except.error e, s)
        | Except.ok c1 =>
          match set_token [("token", c1)] s with
          | (Except.error e, s1) => (Except.error e, s1)
          | (Except.ok _, s1) => cookieScan rest s1
      else cookieScan rest s

/-- `AuthenticationManager.set_up_authentication(email, password)`: signs in
(the raise from a non-302 status propagates — only the persistence block is
wrapped in try/except), then persists the credentials and scans the cookie
dict for a token; any exception inside the persistence block is caught and
converted to a `False` return. -/
def set_up_authentication (email password : String) (resp : LoginResponse)
    (s : ConfigState) : Except Exc Bool × ConfigState :=
  match sign_in_with_email resp with
  | Except.error e => (Except.error e, s)
  | Except.ok b =>
    if b then
      match set_login_details [("email", email), ("password", password)] s with
      | (Except.error _, s1) => (Except.ok false, s1)
      | (Except.ok _, s1) =>
        match cookieScan (get_cookies resp) s1 with
        | (Except.error _, s2) => (Except.ok false, s2)
        | (Except.ok _, s2) => (Except.ok true, s2)
    else (Except.ok false, s)

/-- `AuthenticationManager.tear_down_authentication`: deletes the section
named `TOKENS` (note: the session section is actually named `TOKEN`). -/
def tear_down_authentication (s : ConfigState) : ConfigState :=
  delete_section "TOKENS" s

/-- Body of `AuthenticationManager.authenticate` before exception handling:
load the credentials, then assemble the client — the keyword arguments of
`httpx.Client(...)` evaluate left to right, so `BasicAuth` is constructed
(raising `TypeError` on a `None` credential) before `get_token` is read. -/
def authenticateCore (s : ConfigState) : Except Exc HttpClientConfig :=
  match load_auth_data s with
  | Except.error e => Except.error e
  | Except.ok ud =>
    match basicAuth ud.1 ud.2 with
    | Except.error e => Except.error e
    | Except.ok auth =>
      match get_token s with
      | Except.error e => Except.error e
      | Except.ok tk =>
        Except.ok { authEmail := auth.1, authPassword := auth.2,
                    userAgent := USER_AGENT, cookies := tk }

/-- `AuthenticationManager.authenticate`: wraps the body in handlers for
`FileNotFoundError`, `KeyError` and the catch-all `Exception`, each of which
logs and returns `None`. -/
def authenticate (s : ConfigState) : Except Exc (Option HttpClientConfig) :=
  match authenticateCore s with
  | Except.ok c => Except.ok (some c)
  | Except.error Exc.fileNotFoundError => Except.ok none
  | Except.error (Exc.keyError _) => Except.ok none
  | Except.error _ => Except.ok none

/-- Whether a modelled call let an exception escape. -/
def raised {α : Type} : Except Exc α → Bool
  | Except.error _ => true
  | Except.ok _ => false

/-- Reading one key out of a getter result, as `getter()[key]` would observe it:
`none` when the getter raised or the key is absent. -/
def readKey (r : Except Exc IniSection) (k : String) : Option String :=
  match r with
  | Except.ok kvs => lookupKV kvs k
  | Except.error _ => none

end HFChat

namespace HFChat

theorem getSection_removeSection_self (cfg : IniSections) (n : String) :
    getSection (removeSection cfg n) n = none := by
  induction cfg with
  | nil => rfl
  | cons sec rest ih =>
    by_cases h : sec.1 = n
    · simp [removeSection, h, ih]
    · simp [removeSection, getSection, h, ih]

theorem getSection_setSectionKV_self (cfg : IniSections) (n k v : String) (kvs : IniSection)
    (h : getSection cfg n = some kvs) :
    getSection (setSectionKV cfg n k v) n = some (upsert kvs k v) := by
  induction cfg with
  | nil => simp [getSection] at h
  | cons sec rest ih =>
    by_cases hn : sec.1 = n
    · simp [getSection, hn] at h
      simp [setSectionKV, getSection, hn, h]
    · simp [getSection, hn] at h
      simp [setSectionKV, getSection, hn, ih h]

theorem getSection_setSectionKV_ne (cfg : IniSections) (n m k v : String) (h : n ≠ m) :
    getSection (setSectionKV cfg m k v) n = getSection cfg n := by
  induction cfg with
  | nil => rfl
  | cons sec rest ih =>
    by_cases hm : sec.1 = m
    · have hsn : ¬ sec.1 = n := by rw [hm]; exact fun hh => h hh.symm
      simp [setSectionKV, getSection, hm, hsn, Ne.symm h]
    · simp [setSectionKV, getSection, hm, ih]

theorem lookupKV_upsert_self (kvs : IniSection) (k v : String) :
    lookupKV (upsert kvs k v) k = some v := by
  induction kvs with
  | nil => simp [upsert, lookupKV]
  | cons kv0 rest ih =>
    by_cases h : kv0.1 = k
    · simp [upsert, h, lookupKV]
    · simp [upsert, h, lookupKV, ih]

theorem setKwargsLoop_file (secName : String) (allowed : List String)
    (kwargs : List (String × String)) (s : ConfigState) :
    (setKwargsLoop secName allowed kwargs s).2.file = s.file := by
  induction kwargs generalizing s with
  | nil => rfl
  | cons kv rest ih =>
    obtain ⟨k, v⟩ := kv
    by_cases hk : k ∈ allowed
    · cases hsec : getSection s.mem secName with
      | none => simp [setKwargsLoop, hk, hsec]
      | some kvs => simp [setKwargsLoop, hk, hsec, ih]
    · simp [setKwargsLoop, hk]

theorem setKwargsLoop_invalid (secName : String) (allowed : List String)
    (kwargs : List (String × String)) (s : ConfigState)
    (hs : (getSection s.mem secName).isSome = true)
    (hk : ∃ kv ∈ kwargs, kv.1 ∉ allowed) :
    ∃ k, k ∉ allowed ∧
      (setKwargsLoop secName allowed kwargs s).1 = Except.error (Exc.assertionError k) := by
  induction kwargs generalizing s with
  | nil => simp at hk
  | cons kv rest ih =>
    obtain ⟨k, v⟩ := kv
    by_cases hk1 : k ∈ allowed
    · have hrest : ∃ kv ∈ rest, kv.1 ∉ allowed := by
        obtain ⟨kv0, hmem, hbad⟩ := hk
        rcases List.mem_cons.mp hmem with heq | hm
        · subst heq; exact absurd hk1 hbad
        · exact ⟨kv0, hm, hbad⟩
      obtain ⟨kvs, hkvs⟩ := Option.isSome_iff_exists.mp hs
      have hs2 : (getSection (setSectionKV s.mem secName k v) secName).isSome = true := by
        rw [getSection_setSectionKV_self s.mem secName k v kvs hkvs]; rfl
      obtain ⟨k2, hk2, heq2⟩ := ih { s with mem := setSectionKV s.mem secName k v } hs2 hrest
      refine ⟨k2, hk2, ?_⟩
      simp [setKwargsLoop, hk1, hkvs, heq2]
    · exact ⟨k, hk1, by simp [setKwargsLoop, hk1]⟩

theorem setKwargsLoop_getSection_ne (secName : String) (allowed : List String)
    (kwargs : List (String × String)) (s : ConfigState) (n : String) (hne : n ≠ secName) :
    getSection (setKwargsLoop secName allowed kwargs s).2.mem n = getSection s.mem n := by
  induction kwargs generalizing s with
  | nil => rfl
  | cons kv rest ih =>
    obtain ⟨k, v⟩ := kv
    by_cases hk : k ∈ allowed
    · cases hsec : getSection s.mem secName with
      | none => simp [setKwargsLoop, hk, hsec]
      | some kvs =>
        simp only [setKwargsLoop, if_pos hk, hsec]
        rw [ih]
        exact getSection_setSectionKV_ne s.mem n secName k v hne
    · simp [setKwargsLoop, hk]

theorem singleton_length_one (c : Char) : (String.singleton c).length = 1 := rfl

theorem singleton_ne_token (c : Char) : ¬ String.singleton c = "token" := by
  intro h
  have h1 : (String.singleton c).length = ("token" : String).length := by rw [h]
  rw [singleton_length_one] at h1
  exact absurd h1 (by decide)

theorem cookieScan_state (cs : List (String × String)) (s : ConfigState) :
    (cookieScan cs s).2 = s := by
  induction cs generalizing s with
  | nil => rfl
  | cons ck rest ih =>
    unfold cookieScan
    cases hidx : strIndex ck.1 0 with
    | error e => rfl
    | ok c0 =>
      have hne : ¬ c0 = "token" := by
        unfold strIndex at hidx
        cases hget : ck.1.data.get? 0 with
        | none => rw [hget] at hidx; exact absurd hidx (by simp)
        | some c =>
          rw [hget] at hidx
          simp at hidx
          subst hidx
          exact singleton_ne_token c
      simp [hne, ih]

end HFChat

namespace HFChat

theorem set_login_details_invalid (s : ConfigState) (kwargs : List (String × String))
    (hs : (getSection s.mem "LOGIN").isSome = true)
    (hk : ∃ kv ∈ kwargs, kv.1 ∉ (["email", "password"] : List String)) :
    (∃ k, k ∉ (["email", "password"] : List String) ∧
      (set_login_details kwargs s).1 = Except.error (Exc.assertionError k)) ∧
    (set_login_details kwargs s).2.file = s.file := by
  obtain ⟨k, hkna, heq⟩ := setKwargsLoop_invalid "LOGIN" ["email", "password"] kwargs s hs hk
  have hfile := setKwargsLoop_file "LOGIN" ["email", "password"] kwargs s
  rcases hloop : setKwargsLoop "LOGIN" ["email", "password"] kwargs s with ⟨r, s1⟩
  rw [hloop] at heq hfile
  simp only at heq hfile
  subst heq
  refine ⟨⟨k, hkna, ?_⟩, ?_⟩ <;> simp [set_login_details, hloop, hfile]

theorem set_token_invalid (s : ConfigState) (kwargs : List (String × String))
    (hs : (getSection s.mem "TOKEN").isSome = true)
    (hk : ∃ kv ∈ kwargs, kv.1 ∉ (["token", "expire_date"] : List String)) :
    (∃ k, k ∉ (["token", "expire_date"] : List String) ∧
      (set_token kwargs s).1 = Except.error (Exc.assertionError k)) ∧
    (set_token kwargs s).2.file = s.file := by
  obtain ⟨k, hkna, heq⟩ := setKwargsLoop_invalid "TOKEN" ["token", "expire_date"] kwargs s hs hk
  have hfile := setKwargsLoop_file "TOKEN" ["token", "expire_date"] kwargs s
  rcases hloop : setKwargsLoop "TOKEN" ["token", "expire_date"] kwargs s with ⟨r, s1⟩
  rw [hloop] at heq hfile
  simp only at heq hfile
  subst heq
  refine ⟨⟨k, hkna, ?_⟩, ?_⟩ <;> simp [set_token, hloop, hfile]

theorem set_login_details_token_section (kwargs : List (String × String)) (s : ConfigState) :
    getSection (set_login_details kwargs s).2.mem "TOKEN" = getSection s.mem "TOKEN" := by
  have h := setKwargsLoop_getSection_ne "LOGIN" ["email", "password"] kwargs s "TOKEN"
    (by decide)
  rcases hloop : setKwargsLoop "LOGIN" ["email", "password"] kwargs s with ⟨r, s1⟩
  rw [hloop] at h
  simp only at h
  cases r <;> simp [set_login_details, hloop] <;> exact h

end HFChat

namespace HFChat

/-- C1: the claim says a 302 login carrying a `token` cookie leads to the token
being persisted and `is_logged_in` becoming true. The code iterates the cookie
DICT, so `cookie[0]` is the first character of a cookie name and never equals
`"token"`: at the concrete input the call returns `True` and persists the
credentials, but no token is written and `is_logged_in` stays false. -/
theorem C1_login_succeeds_but_token_not_persisted :
    (set_up_authentication "a@x.com" "pw" ⟨302, [("token", "abc123")]⟩ (Config.make none)).1
      = Except.ok true ∧
    get_login_details (set_up_authentication "a@x.com" "pw" ⟨302, [("token", "abc123")]⟩
        (Config.make none)).2
      = Except.ok [("email", "a@x.com"), ("password", "pw")] ∧
    get_token (set_up_authentication "a@x.com" "pw" ⟨302, [("token", "abc123")]⟩
        (Config.make none)).2
      = Except.ok [] ∧
    is_logged_in (set_up_authentication "a@x.com" "pw" ⟨302, [("token", "abc123")]⟩
        (Config.make none)).2
      = Except.ok false := by
  decide

/-- C2: the claim says a non-302 login makes `set_up_authentication` return
false without raising. In the code only the post-success persistence block is
wrapped in try/except, so the `HTTPStatusError` raised by
`sign_in_with_email` propagates out of `set_up_authentication`; no token is
written. -/
theorem C2_non302_exception_escapes :
    (set_up_authentication "a@x.com" "pw" ⟨401, []⟩ (Config.make none)).1
      = Except.error (Exc.httpStatusError 401) ∧
    get_token (set_up_authentication "a@x.com" "pw" ⟨401, []⟩ (Config.make none)).2
      = Except.ok [] ∧
    is_logged_in (set_up_authentication "a@x.com" "pw" ⟨401, []⟩ (Config.make none)).2
      = Except.ok false := by
  decide

/-- C3: the claim says tearing down authentication leaves the session section
absent or empty, so `is_logged_in` is false afterwards. The code deletes the
section named `TOKENS`, but the session section is named `TOKEN`: after two
tear-downs (which raise nothing) the stored token survives and `is_logged_in`
is still true. -/
theorem C3_teardown_deletes_wrong_section :
    is_logged_in (tear_down_authentication (tear_down_authentication
        (set_token [("token", "abc")] (Config.make none)).2)) = Except.ok true ∧
    getSection (tear_down_authentication (tear_down_authentication
        (set_token [("token", "abc")] (Config.make none)).2)).mem "TOKEN"
      = some [("token", "abc")] := by
  decide

/-- C4: the claim (and the method's docstring) says `config_exists` is false on
a freshly created store with no credential entries. The code computes
`all(values())`, which is vacuously true on the empty `LOGIN` section, so a
fresh store reports true. -/
theorem C4_config_exists_true_on_fresh_store :
    config_exists (Config.make none) = Except.ok true := by
  decide

/-- C5 counterexample: at the concrete fresh store, reading the token section
after `delete_section("TOKEN")` raises `KeyError` instead of returning the
empty map the claim promises. -/
theorem C5_counterexample_read_after_delete_raises :
    get_token (delete_section "TOKEN" (Config.make none))
      = Except.error (Exc.keyError "TOKEN") := by
  decide

/-- C5 (amended): after `delete_section` removes a section, every subsequent
read of that section (`get_token` for `TOKEN`, `get_login_details` for
`LOGIN`) raises `KeyError` for the missing section, in every store state. -/
theorem C5_reads_after_delete_raise_keyerror (s : ConfigState) :
    get_token (delete_section "TOKEN" s) = Except.error (Exc.keyError "TOKEN") ∧
    get_login_details (delete_section "LOGIN" s) = Except.error (Exc.keyError "LOGIN") := by
  constructor
  · simp [get_token, delete_section, getSection_removeSection_self]
  · simp [get_login_details, delete_section, getSection_removeSection_self]

/-- C6: `authenticate` never lets an exception escape — its handler chain ends
in a catch-all — and it returns `None` in each of the claim's recoverable
conditions: on the state a missing backing file produces (empty credential
sections, where `BasicAuth` construction raises `TypeError` on the `None`
credentials), on every state where a required key is missing from the loaded
authentication data, and on every state where the body raises any exception
at all. -/
theorem C6_authenticate_never_raises (s : ConfigState) :
    raised (authenticate s) = false ∧
    authenticate (Config.make none) = Except.ok none ∧
    ((readKey (get_login_details s) "email" = none ∨
      readKey (get_login_details s) "password" = none) →
      authenticate s = Except.ok none) ∧
    (∀ e : Exc, authenticateCore s = Except.error e → authenticate s = Except.ok none) := by
  refine ⟨?_, by decide, ?_, ?_⟩
  · unfold authenticate
    cases authenticateCore s with
    | ok c => rfl
    | error e => cases e <;> rfl
  · intro hmiss
    unfold authenticate authenticateCore load_auth_data
    cases hsec : get_login_details s with
    | error e => cases e <;> rfl
    | ok kvs =>
      rw [hsec] at hmiss
      simp only [readKey] at hmiss
      rcases hmiss with h | h
      · simp [basicAuth, h]
      · cases hemail : lookupKV kvs "email" with
        | none => simp [basicAuth, hemail]
        | some e0 => simp [basicAuth, hemail, h]
  · intro e he
    unfold authenticate
    rw [he]
    cases e <;> rfl

/-- C6 witness: the fresh store (the state a missing backing file yields) has
no `email` key and `authenticate` returns `None`; on the store whose `LOGIN`
section has been deleted the body raises `KeyError` and `authenticate` also
returns `None`. -/
theorem C6_authenticate_never_raises_witness :
    authenticate (Config.make none) = Except.ok none ∧
    authenticate (delete_section "LOGIN" (Config.make none)) = Except.ok none :=
  ⟨(C6_authenticate_never_raises (Config.make none)).2.2.1 (Or.inl (by decide)),
   (C6_authenticate_never_raises (delete_section "LOGIN" (Config.make none))).2.2.2
     (Exc.keyError "LOGIN") (by decide)⟩

/-- C7 counterexample: calling `set_login_details` with a valid key followed by
an invalid one raises the invalid-key assertion, yet the valid key has already
been applied to the in-memory section, so the section contents afterwards
differ from before the call. -/
theorem C7_counterexample_partial_application :
    (set_login_details [("email", "a"), ("bogus", "x")] (Config.make none)).1
      = Except.error (Exc.assertionError "bogus") ∧
    get_login_details (set_login_details [("email", "a"), ("bogus", "x")]
        (Config.make none)).2
      = Except.ok [("email", "a")] ∧
    get_login_details (Config.make none) = Except.ok [] := by
  decide

/-- C7 (amended): a `set_login_details` or `set_token` call containing a key
outside the section's allowed set raises the invalid-key assertion error and
the backing file is not rewritten; keys preceding the first invalid key,
however, remain applied to the in-memory section. -/
theorem C7_invalid_key_raises_and_file_unchanged (s : ConfigState)
    (kwargs : List (String × String)) :
    ((getSection s.mem "LOGIN").isSome = true →
      (∃ kv ∈ kwargs, kv.1 ∉ (["email", "password"] : List String)) →
      (∃ k, k ∉ (["email", "password"] : List String) ∧
        (set_login_details kwargs s).1 = Except.error (Exc.assertionError k)) ∧
      (set_login_details kwargs s).2.file = s.file) ∧
    ((getSection s.mem "TOKEN").isSome = true →
      (∃ kv ∈ kwargs, kv.1 ∉ (["token", "expire_date"] : List String)) →
      (∃ k, k ∉ (["token", "expire_date"] : List String) ∧
        (set_token kwargs s).1 = Except.error (Exc.assertionError k)) ∧
      (set_token kwargs s).2.file = s.file) :=
  ⟨fun hs hk => set_login_details_invalid s kwargs hs hk,
   fun hs hk => set_token_invalid s kwargs hs hk⟩

/-- C7 witness: a concrete invalid-key call on each setter leaves the (absent)
backing file untouched. -/
theorem C7_invalid_key_raises_and_file_unchanged_witness :
    (set_login_details [("bogus", "x")] (Config.make none)).2.file = (Config.make none).file ∧
    (set_token [("bogus", "x")] (Config.make none)).2.file = (Config.make none).file :=
  ⟨((C7_invalid_key_raises_and_file_unchanged (Config.make none) [("bogus", "x")]).1
      (by decide) ⟨("bogus", "x"), by decide, by decide⟩).2,
   ((C7_invalid_key_raises_and_file_unchanged (Config.make none) [("bogus", "x")]).2
      (by decide) ⟨("bogus", "x"), by decide, by decide⟩).2⟩

/-- C8: a value written under an allowed key by `set_login_details` or
`set_token` is read back unchanged, byte for byte, by the corresponding getter
on a fresh `Config` constructed against the same backing file. -/
theorem C8_roundtrip_stored_values (s : ConfigState) (key v : String) :
    (key ∈ (["email", "password"] : List String) →
      (getSection s.mem "LOGIN").isSome = true →
      readKey (get_login_details (Config.make (set_login_details [(key, v)] s).2.file)) key
        = some v) ∧
    (key ∈ (["token", "expire_date"] : List String) →
      (getSection s.mem "TOKEN").isSome = true →
      readKey (get_token (Config.make (set_token [(key, v)] s).2.file)) key = some v) := by
  constructor
  · intro hkey hsec
    obtain ⟨kvs, hkvs⟩ := Option.isSome_iff_exists.mp hsec
    have hloop : setKwargsLoop "LOGIN" ["email", "password"] [(key, v)] s
        = (Except.ok (), { s with mem := setSectionKV s.mem "LOGIN" key v }) := by
      simp [setKwargsLoop, hkey, hkvs]
    have hget := getSection_setSectionKV_self s.mem "LOGIN" key v kvs hkvs
    simp [set_login_details, hloop, Config.make, get_login_details, readKey, hget,
      lookupKV_upsert_self]
  · intro hkey hsec
    obtain ⟨kvs, hkvs⟩ := Option.isSome_iff_exists.mp hsec
    have hloop : setKwargsLoop "TOKEN" ["token", "expire_date"] [(key, v)] s
        = (Except.ok (), { s with mem := setSectionKV s.mem "TOKEN" key v }) := by
      simp [setKwargsLoop, hkey, hkvs]
    have hget := getSection_setSectionKV_self s.mem "TOKEN" key v kvs hkvs
    simp [set_token, hloop, Config.make, get_token, readKey, hget, lookupKV_upsert_self]

/-- C8 witness: concrete round trips through a reloaded store for one key of
each section. -/
theorem C8_roundtrip_stored_values_witness :
    readKey (get_login_details (Config.make
        (set_login_details [("email", "me@example.com")] (Config.make none)).2.file)) "email"
      = some "me@example.com" ∧
    readKey (get_token (Config.make
        (set_token [("expire_date", "2024-06-09")] (Config.make none)).2.file)) "expire_date"
      = some "2024-06-09" :=
  ⟨(C8_roundtrip_stored_values (Config.make none) "email" "me@example.com").1
      (by decide) (by decide),
   (C8_roundtrip_stored_values (Config.make none) "expire_date" "2024-06-09").2
      (by decide) (by decide)⟩

/-- C9 counterexample: with a stored session holding an old token and a
non-empty `expire_date`, a successful 302 login carrying a fresh `token`
cookie returns `True` yet leaves the old token and the old `expire_date` in
place — the session section does not hold the data produced by that login. -/
theorem C9_counterexample_stale_expire_date :
    (set_up_authentication "a@x.com" "pw" ⟨302, [("token", "new")]⟩
        (set_token [("token", "old"), ("expire_date", "2024-01-01")] (Config.make none)).2).1
      = Except.ok true ∧
    get_token (set_up_authentication "a@x.com" "pw" ⟨302, [("token", "new")]⟩
        (set_token [("token", "old"), ("expire_date", "2024-01-01")] (Config.make none)).2).2
      = Except.ok [("token", "old"), ("expire_date", "2024-01-01")] := by
  decide

/-- C9 (amended): `set_up_authentication` never modifies the session (`TOKEN`)
section at all: the cookie scan compares the first character of each cookie
name to the string `"token"`, which never matches, so every previously stored
session field — in particular `expire_date` — persists unchanged. -/
theorem C9_login_never_updates_token_section (s : ConfigState) (email password : String)
    (resp : LoginResponse) :
    getSection (set_up_authentication email password resp s).2.mem "TOKEN"
      = getSection s.mem "TOKEN" := by
  unfold set_up_authentication
  cases hsign : sign_in_with_email resp with
  | error e => rfl
  | ok b =>
    cases b with
    | false => rfl
    | true =>
      have h1full := set_login_details_token_section [("email", email), ("password", password)] s
      rcases hset : set_login_details [("email", email), ("password", password)] s with ⟨r1, s1⟩
      rw [hset] at h1full
      cases r1 with
      | error e => simpa using h1full
      | ok u =>
        have h2full := cookieScan_state (get_cookies resp) s1
        rcases hscan : cookieScan (get_cookies resp) s1 with ⟨r2, s2⟩
        rw [hscan] at h2full
        cases r2 <;> simp [hscan, h2full, h1full]

/-- C10: constructing a `Config` when the backing file is absent writes
nothing: the file stays absent, both sections read back as empty maps,
`is_logged_in` is false, and the file first comes into existence on the first
mutating call (`set_login_details`, `set_token` or `delete_section`). -/
theorem C10_no_write_on_construction :
    (Config.make none).file = none ∧
    get_login_details (Config.make none) = Except.ok [] ∧
    get_token (Config.make none) = Except.ok [] ∧
    is_logged_in (Config.make none) = Except.ok false ∧
    (∀ v : String, (set_login_details [("email", v)] (Config.make none)).2.file
        = some [("LOGIN", [("email", v)]), ("TOKEN", [])]) ∧
    (∀ v : String, (set_token [("token", v)] (Config.make none)).2.file
        = some [("LOGIN", []), ("TOKEN", [("token", v)])]) ∧
    (∀ name : String, ((delete_section name (Config.make none)).file).isSome = true) := by
  refine ⟨rfl, rfl, rfl, rfl, fun v => ?_, fun v => ?_, fun name => rfl⟩
  · rfl
  · rfl

end HFChat
